import Mathlib

/-!
Verification of the Ally speech service session layer
(`speech-service/speech_service.py` and `speech-service/minimal_service.py`).

The Python source is shallowly embedded: pure helpers become Lean functions
over `List Char` (Python strings), the stateful parts become explicit state
passing over record types, and the asyncio driver loop for the synthesis
queue becomes a small-step transition relation whose interleavings cover the
scheduler's.  External collaborators (the TTS engine, the ggwave modem) are
passed in as oracle functions, matching the spec's treatment of them as
opaque boundaries.
-/

namespace Ally

/-- Configuration record mirroring the fields of `SpeechConfig` that the
session layer reads (defaults are the source's defaults). -/
structure SpeechConfig where
  vad_mode : Nat := 1
  chunk_duration_ms : Nat := 30
  silence_threshold : Nat := 2
  max_speech_chunks : Nat := 100
  min_speech_chunks : Nat := 10
  max_sentence_length : Nat := 50
  max_payload_size : Nat := 140
  deriving DecidableEq

/-- The default configuration (`SpeechConfig()` in the source). -/
def defaultConfig : SpeechConfig := {}

/-- Capacity of `self.tts_queue` (`queue.Queue(maxsize=10)`). -/
def ttsQueueMaxsize : Nat := 10

/-- Python whitespace for `str.strip` and the regex class backslash-s,
restricted to the ASCII whitespace characters. -/
def pyIsSpace (c : Char) : Bool :=
  c = ' ' || c = '\t' || c = '\n' || c = '\r' || c = Char.ofNat 11 || c = Char.ofNat 12

/-- Python `str.strip()`: drop whitespace from both ends. -/
def pyStrip (l : List Char) : List Char :=
  ((l.dropWhile pyIsSpace).reverse.dropWhile pyIsSpace).reverse

/-- Scan for the closing delimiter of a non-greedy group whose body may not
cross a newline (regex dot): returns the body up to the nearest occurrence
of `delim` and the input after that occurrence. -/
def scanToDelim (delim : List Char) : List Char → Option (List Char × List Char)
  | [] => none
  | c :: cs =>
    if delim.isPrefixOf (c :: cs) then some ([], (c :: cs).drop delim.length)
    else if c = '\n' then none
    else
      match scanToDelim delim cs with
      | some (body, rest) => some (c :: body, rest)
      | none => none

/-- Scan for the nearest occurrence of `sep`, with the skipped part allowed
to cross newlines (regex dot in DOTALL mode); returns the input after it. -/
def scanToSep (sep : List Char) : List Char → Option (List Char)
  | [] => none
  | c :: cs =>
    if sep.isPrefixOf (c :: cs) then some ((c :: cs).drop sep.length)
    else scanToSep sep cs

/-- Index of the last adjacent pair of newlines in a list, if any. -/
def lastNN : List Char → Option Nat
  | c :: d :: rest =>
    (match lastNN (d :: rest) with
     | some j => some (j + 1)
     | none => if c = '\n' ∧ d = '\n' then some 0 else none)
  | _ => none

/-- Backtracking match of greedy whitespace-star followed by two literal
newlines: the whitespace run backs off to the last newline pair inside it;
returns the input after those two newlines. -/
def matchWsNN (l : List Char) : Option (List Char) :=
  match lastNN (l.takeWhile pyIsSpace) with
  | some j => some (l.drop (j + 2))
  | none => none

/-- The thought-balloon emoji opening the reasoning-framing patterns. -/
def thoughtEmoji : Char := Char.ofNat 128173

/-- Literal header of the first reasoning-framing pattern. -/
def thinkingHeader1 : List Char := "**Thinking...**".data

/-- Literal header of the second reasoning-framing pattern. -/
def thinkingHeader2 : List Char := "**Thought Process:**".data

/-- Literal separator before the answer part of a reasoning-framing block. -/
def answerSep : List Char := "\n\n---\n\n**Answer:**".data

/-- Match the tail of a reasoning-framing block (everything after the
emoji): whitespace, the header literal, whitespace ending in a blank line,
a lazily-skipped body, the answer separator, and whitespace ending in a
blank line.  Returns the input after the whole match. -/
def matchThinking (header : List Char) (l : List Char) : Option (List Char) := do
  let l1 := l.dropWhile pyIsSpace
  if header.isPrefixOf l1 then
    let l2 := l1.drop header.length
    let l3 ← matchWsNN l2
    let l4 ← scanToSep answerSep l3
    matchWsNN l4
  else none

/-- One attempted match of a reasoning-framing block at the head of the
input; the replacement is empty. -/
def tryThinking (header : List Char) : List Char → Option (List Char × List Char)
  | [] => none
  | c :: cs =>
    if c = thoughtEmoji then (matchThinking header cs).map (fun rest => ([], rest))
    else none

/-- One attempted match of a delimited emphasis or code span at the head of
the input; the replacement is the span body. -/
def tryDelim (delim : List Char) (l : List Char) : Option (List Char × List Char) :=
  if delim.isPrefixOf l then scanToDelim delim (l.drop delim.length) else none

/-- One attempted match of a markdown heading at the head of the input:
one to six hash marks, greedy whitespace, then the rest of the line, which
is also the replacement. -/
def tryHeader : List Char → Option (List Char × List Char)
  | c :: cs =>
    if c = '#' then
      let extra := min 5 ((cs.takeWhile (fun d => d = '#')).length)
      let after := (cs.drop extra).dropWhile pyIsSpace
      some (after.takeWhile (fun d => ¬ d = '\n'), after.dropWhile (fun d => ¬ d = '\n'))
    else none
  | [] => none

/-- Left-to-right scan-and-replace driver shared by all the `re.sub` calls
of `_split_into_sentences`: at each position try a match, emit its
replacement and jump past it, or keep the character and advance by one.
Every successful `tryMatch` used here consumes at least one character, so
an initial fuel equal to the input length never runs out. -/
def scanSub (tryMatch : List Char → Option (List Char × List Char)) :
    Nat → List Char → List Char
  | 0, l => l
  | _ + 1, [] => []
  | fuel + 1, c :: cs =>
    match tryMatch (c :: cs) with
    | some (out, rest) => out ++ scanSub tryMatch fuel rest
    | none => c :: scanSub tryMatch fuel cs

/-- One full `re.sub` pass over the input. -/
def pySub (tryMatch : List Char → Option (List Char × List Char)) (l : List Char) :
    List Char :=
  scanSub tryMatch l.length l

/-- Asterisk pair delimiting bold spans. -/
def boldDelim : List Char := ['*', '*']

/-- Single asterisk delimiting italic spans. -/
def italicDelim : List Char := ['*']

/-- Backquote delimiting code spans. -/
def codeDelim : List Char := [Char.ofNat 96]

/-- Sentence-terminal punctuation of the sentence-split regex. -/
def sentenceEnders : List Char := ['.', '!', '?']

/-- Fueled worker for `reSplitAfter`: a split happens at each whitespace
character whose predecessor is a terminator, consuming the whole whitespace
run.  `acc` holds the current piece reversed, so its head is the
predecessor.  Every step consumes at least one input character, so an
initial fuel equal to the input length never runs out. -/
def reSplitAfterFuel (terms : List Char) : Nat → List Char → List Char → List (List Char)
  | _, acc, [] => [acc.reverse]
  | 0, acc, l => [acc.reverse ++ l]
  | fuel + 1, acc, c :: cs =>
    if ((match acc with | p :: _ => terms.contains p | [] => false) && pyIsSpace c) then
      acc.reverse :: reSplitAfterFuel terms fuel [] (cs.dropWhile pyIsSpace)
    else
      reSplitAfterFuel terms fuel (c :: acc) cs

/-- Python `re.split` with a lookbehind on a terminator class and a greedy
whitespace-run separator. -/
def reSplitAfter (terms : List Char) (acc : List Char) (l : List Char) :
    List (List Char) :=
  reSplitAfterFuel terms l.length acc l

/-- The merge loop of `_split_into_sentences`: a fragment shorter than 20
characters absorbs the following fragment (if any), and any resulting
fragment longer than `maxLen` is further split after commas. -/
def mergeSentences (maxLen : Nat) : List (List Char) → List (List Char)
  | [] => []
  | [s] => if maxLen < s.length then reSplitAfter [','] [] s else [s]
  | s :: t :: rest2 =>
    if s.length < 20 then
      let current := s ++ ' ' :: t
      (if maxLen < current.length then reSplitAfter [','] [] current else [current])
        ++ mergeSentences maxLen rest2
    else
      (if maxLen < s.length then reSplitAfter [','] [] s else [s])
        ++ mergeSentences maxLen (t :: rest2)

/-- `SpeechService._split_into_sentences`: strip reasoning-framing blocks,
strip bold, italic, code and heading markup, strip outer whitespace, split
after sentence-terminal punctuation followed by whitespace, keep only
fragments whose stripped length exceeds 3, then run the merge loop. -/
def split_into_sentences (cfg : SpeechConfig) (text : List Char) : List (List Char) :=
  let c0 := pySub (tryThinking thinkingHeader1) text
  let c1 := pySub (tryThinking thinkingHeader2) c0
  let c2 := pySub (tryDelim boldDelim) c1
  let c3 := pySub (tryDelim italicDelim) c2
  let c4 := pySub (tryDelim codeDelim) c3
  let c5 := pySub tryHeader c4
  let pieces := reSplitAfter sentenceEnders [] (pyStrip c5)
  let sentences := (pieces.map pyStrip).filter (fun s => decide (s ≠ [] ∧ 3 < s.length))
  mergeSentences cfg.max_sentence_length sentences

/-- Audio payload handed back by the synthesis collaborator (wav bytes). -/
def Audio : Type := List Nat

instance : DecidableEq Audio := inferInstanceAs (DecidableEq (List Nat))

/-- Outbound events, one constructor per `_send_response` command of the
two services, carrying the payload fields the source fills in. -/
inductive Event where
  | connected
  | listening_started
  | listening_stopped
  | status (listening : Bool) (device : List Char) (models_loaded : Bool)
      (tts_queue_size : Nat) (is_processing_tts : Bool) (current_tts_id : Option Nat)
  | status_minimal (listening : Bool) (device : List Char) (models_loaded : Bool)
      (service_type : List Char)
  | speech_generated (audio_data : Audio) (text : List Char) (message_id : Option Nat)
  | speech_error (err : List Char) (message_id : Option Nat)
  | tts_stopped (msg : List Char)
  | tts_stream_start (total_sentences : Nat) (text : List Char) (message_id : Option Nat)
  | tts_stream_chunk (audio_data : Audio) (text : List Char) (chunk_index : Nat)
      (total_chunks : Nat) (is_final : Bool) (message_id : Option Nat)
  | tts_stream_complete (text : List Char) (total_chunks : Nat) (message_id : Option Nat)
  | tts_stream_error (err : List Char) (message_id : Option Nat)
  | ggwave_sent (success : Bool) (text : List Char)
  | ggwave_error (err : List Char)
  | speech_recognized (text : List Char) (confidence : Nat)
  | error (err : List Char)
  deriving DecidableEq

/-- The two TTS-processing flags guarded by `self.tts_lock`. -/
structure TtsFlags where
  is_processing_tts : Bool
  current_tts_id : Option Nat
  deriving DecidableEq

/-- The per-sentence loop of `_handle_streaming_tts`: for each sentence,
re-check the supersession guard (an early return also abandons the
completion event, hence the Bool), skip blank sentences, synthesize, and on
success emit a `tts_stream_chunk` whose `is_final` flags the last index; a
synthesis failure is only logged — the sentence is skipped and the loop
continues. -/
def stream_sentences (synth : List Char → Option Audio) (fl : TtsFlags)
    (message_id : Option Nat) (total : Nat) : Nat → List (List Char) → List Event × Bool
  | _, [] => ([], true)
  | i, s :: rest =>
    if ¬ fl.is_processing_tts ∨ fl.current_tts_id ≠ message_id then ([], false)
    else
      let ss := pyStrip s
      let evs :=
        if ss ≠ [] then
          match synth ss with
          | some wav =>
              [Event.tts_stream_chunk wav ss i total (decide (i = total - 1)) message_id]
          | none => []
        else []
      let (restEvs, completed) := stream_sentences synth fl message_id total (i + 1) rest
      (evs ++ restEvs, completed)

/-- `SpeechService._handle_streaming_tts`: check the supersession guard,
split the text, emit `tts_stream_start` with the sentence count, run the
per-sentence loop, and emit `tts_stream_complete` unless the loop was
abandoned by the guard. -/
def handle_streaming_tts (synth : List Char → Option Audio) (cfg : SpeechConfig)
    (fl : TtsFlags) (text : List Char) (message_id : Option Nat) : List Event :=
  if ¬ fl.is_processing_tts ∨ fl.current_tts_id ≠ message_id then []
  else
    let sentences := split_into_sentences cfg text
    let r := stream_sentences synth fl message_id sentences.length 0 sentences
    Event.tts_stream_start sentences.length text message_id
      :: r.1
      ++ (if r.2 then [Event.tts_stream_complete text sentences.length message_id] else [])

/-- A queued synthesis request (`tts_request` dict; the enqueue timestamp
is irrelevant to the claims and omitted). -/
structure TtsRequest where
  conn : Nat
  text : List Char
  message_id : Option Nat
  streaming : Bool
  deriving DecidableEq

/-- The slice of `SpeechService` state the message handlers read and
mutate.  `running` is the listening flag reported by `get_status`;
`whisper_loaded` and `tts_model_loaded` record whether the two model
attributes are non-None. -/
structure ServiceState where
  running : Bool
  device : List Char
  whisper_loaded : Bool
  tts_model_loaded : Bool
  tts_queue : List TtsRequest
  is_processing_tts : Bool
  current_tts_id : Option Nat
  deriving DecidableEq

/-- A parsed inbound message (`command` and `payload` fields), or the
undecodable case raising `json.JSONDecodeError`.  An absent payload text
equals the empty default of `payload.get` with an empty-string fallback. -/
inductive Inbound where
  | malformed
  | msg (command : Option (List Char)) (text : List Char) (message_id : Option Nat)
      (streaming : Bool)
  deriving DecidableEq

/-- Error text sent when the TTS model is not loaded. -/
def ttsNotLoadedMsg : List Char := "TTS model not loaded".data

/-- Error text sent when `put_nowait` on the TTS queue raises `queue.Full`. -/
def queueFullMsg : List Char := "TTS queue full, please try again later".data

/-- Acknowledgement text of `stop_tts` when a request was being processed. -/
def ttsStoppedMsg : List Char := "TTS processing stopped".data

/-- Acknowledgement text of `stop_tts` when nothing was being processed. -/
def noTtsProcessingMsg : List Char := "No TTS currently processing".data

/-- `SpeechService._handle_tts_request`: refuse when the TTS model is
missing; otherwise `put_nowait` the request — appending to the back of the
FIFO when below `ttsQueueMaxsize` (the driver task it spawns is modelled
separately as `DriverStep`), or reporting `speech_error` on `queue.Full`
without adding or retrying. -/
def handle_tts_request (st : ServiceState) (conn : Nat) (text : List Char)
    (message_id : Option Nat) (streaming : Bool) : ServiceState × List (Nat × Event) :=
  if ¬ st.tts_model_loaded then
    (st, [(conn, Event.speech_error ttsNotLoadedMsg none)])
  else if st.tts_queue.length < ttsQueueMaxsize then
    ({ st with tts_queue := st.tts_queue ++ [⟨conn, text, message_id, streaming⟩] }, [])
  else
    (st, [(conn, Event.speech_error queueFullMsg none)])

/-- `SpeechService._handle_stop_tts`: under the lock, if a request is being
processed, drain the queue, reset both flags and acknowledge; otherwise
acknowledge that nothing was processing, changing no state. -/
def handle_stop_tts (st : ServiceState) (conn : Nat) : ServiceState × List (Nat × Event) :=
  if st.is_processing_tts then
    ({ st with tts_queue := [], is_processing_tts := false, current_tts_id := none },
     [(conn, Event.tts_stopped ttsStoppedMsg)])
  else
    (st, [(conn, Event.tts_stopped noTtsProcessingMsg)])

/-- Command string constants of the dispatch chain. -/
def startListeningCmd : List Char := "start_listening".data

/-- Command string: stop listening. -/
def stopListeningCmd : List Char := "stop_listening".data

/-- Command string: synthesize speech. -/
def synthesizeSpeechCmd : List Char := "synthesize_speech".data

/-- Command string: stop TTS. -/
def stopTtsCmd : List Char := "stop_tts".data

/-- Command string: send ggwave. -/
def sendGgwaveCmd : List Char := "send_ggwave".data

/-- Command string: get status. -/
def getStatusCmd : List Char := "get_status".data

/-- `SpeechService._handle_websocket_message`: decode, then dispatch on the
command string.  A `json.JSONDecodeError` is caught and only logged (no
event, no crash); a command matching no branch falls through the if-elif
chain silently.  `synthesize_speech` and `send_ggwave` act only on a
non-empty text; the ggwave modem-encode collaborator is the `ggwave`
oracle, whose Bool lands in `ggwave_sent` (its own exceptions, which would
produce `ggwave_error`, are outside this embedding). -/
def handle_websocket_message (ggwave : List Char → Bool) (st : ServiceState)
    (conn : Nat) (inb : Inbound) : ServiceState × List (Nat × Event) :=
  match inb with
  | .malformed => (st, [])
  | .msg command text message_id streaming =>
    if command = some startListeningCmd then
      (st, [(conn, Event.listening_started)])
    else if command = some stopListeningCmd then
      (st, [(conn, Event.listening_stopped)])
    else if command = some synthesizeSpeechCmd then
      if text ≠ [] then handle_tts_request st conn text message_id streaming
      else (st, [])
    else if command = some stopTtsCmd then
      handle_stop_tts st conn
    else if command = some sendGgwaveCmd then
      if text ≠ [] then (st, [(conn, Event.ggwave_sent (ggwave text) text)])
      else (st, [])
    else if command = some getStatusCmd then
      (st, [(conn, Event.status st.running st.device
        (st.whisper_loaded && st.tts_model_loaded) st.tts_queue.length
        st.is_processing_tts st.current_tts_id)])
    else
      (st, [])

/-- Rendering of the command value inside the minimal service's
unknown-command f-string (`None` when the field was absent). -/
def renderCommand : Option (List Char) → List Char
  | some s => s
  | none => "None".data

/-- Unknown-command error text of the minimal service. -/
def unknownCommandMsg (command : Option (List Char)) : List Char :=
  "Unknown command: ".data ++ renderCommand command

/-- Invalid-JSON error text of the minimal service. -/
def invalidJsonMsg : List Char := "Invalid JSON".data

/-- TTS-unavailable error text of the minimal service. -/
def minimalTtsMsg : List Char := "TTS not available in minimal service".data

/-- ggwave-unavailable error text of the minimal service. -/
def minimalGgwaveMsg : List Char := "ggwave not available in minimal service".data

/-- `MinimalSpeechService._handle_websocket_message`: same dispatch, but an
unrecognized command reaches an explicit else branch sending an `error`
event naming it, and undecodable input sends an `error{Invalid JSON}`
event. -/
def minimal_handle_websocket_message (inb : Inbound) : List Event :=
  match inb with
  | .malformed => [Event.error invalidJsonMsg]
  | .msg command _text _message_id _streaming =>
    if command = some getStatusCmd then
      [Event.status_minimal false "cpu".data false "minimal".data]
    else if command = some startListeningCmd then
      [Event.listening_started]
    else if command = some stopListeningCmd then
      [Event.listening_stopped]
    else if command = some synthesizeSpeechCmd then
      [Event.speech_error minimalTtsMsg none]
    else if command = some sendGgwaveCmd then
      [Event.ggwave_error minimalGgwaveMsg]
    else
      [Event.error (unknownCommandMsg command)]

/-- Capacity of `self.audio_queue` (`queue.Queue(maxsize=5)`). -/
def audioQueueMaxsize : Nat := 5

/-- State of the capture thread's segmentation: the number of buffered
speech frames (`len(self.speech_buffer)` — the byte payloads are
irrelevant to frame-count claims), the consecutive-silence counter, the
utterance queue holding the frame count of each queued utterance, and the
full history of utterances ever handed to the queue. -/
structure SegState where
  speech_buffer : Nat
  silence_counter : Nat
  audio_queue : List Nat
  emitted : List Nat
  deriving DecidableEq

/-- The initial segmentation state (empty buffer, zero counter, empty
queue). -/
def initSegState : SegState := ⟨0, 0, [], []⟩

/-- `SpeechService._process_speech_buffer`: when at least
`min_speech_chunks` frames are buffered and either the silence counter has
reached `silence_threshold` or the buffer has reached `max_speech_chunks`,
concatenate the buffer into one utterance, hand it to the audio queue when
fewer than 3 items are queued (with the queue below 3 of its 5 slots,
`put_nowait` cannot raise), and clear the buffer either way. -/
def process_speech_buffer (cfg : SpeechConfig) (st : SegState) : SegState :=
  if cfg.min_speech_chunks ≤ st.speech_buffer then
    if cfg.silence_threshold ≤ st.silence_counter ∨
        cfg.max_speech_chunks ≤ st.speech_buffer then
      let st' :=
        if st.audio_queue.length < 3 then
          { st with audio_queue := st.audio_queue ++ [st.speech_buffer],
                    emitted := st.emitted ++ [st.speech_buffer] }
        else st
      { st' with speech_buffer := 0 }
    else st
  else st

/-- One iteration of the `audio_capture` loop body on a frame already
classified by the voice-activity collaborator: a speech frame is appended
and resets the silence counter; a silence frame increments the counter and
then — only then — evaluates the flush condition. -/
def captureStep (cfg : SpeechConfig) (st : SegState) (is_speech : Bool) : SegState :=
  if is_speech then
    { st with speech_buffer := st.speech_buffer + 1, silence_counter := 0 }
  else
    process_speech_buffer cfg { st with silence_counter := st.silence_counter + 1 }

/-- The capture loop over a finite sequence of classified frames. -/
def captureRun (cfg : SpeechConfig) (st : SegState) (frames : List Bool) : SegState :=
  frames.foldl (captureStep cfg) st

/-- Where an asyncio task spawned by `_handle_tts_request` stands in
`_process_tts_queue`: before the locked idle-to-active guard, inside the
drain loop (holding the request currently being processed, if any), or
returned. -/
inductive TaskState where
  | guard
  | active (work : Option Nat)
  | done
  deriving DecidableEq

/-- The shared state the driver tasks interleave on: the single-flight
flag, the FIFO of queued request ids, and the spawned tasks. -/
structure DriverState where
  is_processing_tts : Bool
  tts_queue : List Nat
  tasks : List TaskState
  deriving DecidableEq

/-- The initial driver state: idle flag, empty queue, no tasks. -/
def initDriverState : DriverState := ⟨false, [], []⟩

/-- Interleaved small steps of `_handle_tts_request` enqueues and
`_process_tts_queue` tasks.  The three-way test-and-set at the top of
`_process_tts_queue` runs under `tts_lock` with no awaits, hence one
atomic step per outcome (`guardBusy`, `guardEmpty`, `guardAcquire`); the
drain loop's while-check plus `get_nowait` has no await between them
(`dequeue`), each dequeued request is awaited to completion
(`finishRequest`), and the `finally` block releases the flag after the
loop finds the queue empty (`release`).  `stop_tts` cancellation is
outside this system, which covers interleavings of enqueues with running
driver loops. -/
inductive DriverStep : DriverState → DriverState → Prop where
  | enqueue (flag : Bool) (q : List Nat) (ts : List TaskState) (r : Nat)
      (h : q.length < ttsQueueMaxsize) :
      DriverStep ⟨flag, q, ts⟩ ⟨flag, q ++ [r], ts ++ [.guard]⟩
  | enqueueFull (flag : Bool) (q : List Nat) (ts : List TaskState)
      (h : ¬ q.length < ttsQueueMaxsize) :
      DriverStep ⟨flag, q, ts⟩ ⟨flag, q, ts⟩
  | guardBusy (q : List Nat) (pre post : List TaskState) :
      DriverStep ⟨true, q, pre ++ .guard :: post⟩ ⟨true, q, pre ++ .done :: post⟩
  | guardEmpty (pre post : List TaskState) :
      DriverStep ⟨false, [], pre ++ .guard :: post⟩ ⟨false, [], pre ++ .done :: post⟩
  | guardAcquire (q : List Nat) (pre post : List TaskState) (h : q ≠ []) :
      DriverStep ⟨false, q, pre ++ .guard :: post⟩ ⟨true, q, pre ++ .active none :: post⟩
  | dequeue (flag : Bool) (r : Nat) (q : List Nat) (pre post : List TaskState) :
      DriverStep ⟨flag, r :: q, pre ++ .active none :: post⟩
        ⟨flag, q, pre ++ .active (some r) :: post⟩
  | finishRequest (flag : Bool) (q : List Nat) (r : Nat) (pre post : List TaskState) :
      DriverStep ⟨flag, q, pre ++ .active (some r) :: post⟩
        ⟨flag, q, pre ++ .active none :: post⟩
  | release (flag : Bool) (pre post : List TaskState) :
      DriverStep ⟨flag, [], pre ++ .active none :: post⟩ ⟨false, [], pre ++ .done :: post⟩

/-- States reachable from the initial driver state by interleaved steps. -/
inductive DriverReachable : DriverState → Prop where
  | init : DriverReachable initDriverState
  | step {s s' : DriverState} : DriverReachable s → DriverStep s s' → DriverReachable s'

/-- A task inside the drain loop (a running driver loop). -/
def isActiveTask : TaskState → Bool
  | .active _ => true
  | _ => false

/-- A task currently processing a dequeued request (a request in flight). -/
def isInFlightTask : TaskState → Bool
  | .active (some _) => true
  | _ => false

/-- Number of running driver loops. -/
def activeCount (s : DriverState) : Nat := s.tasks.countP isActiveTask

/-- Number of requests being processed. -/
def inFlightCount (s : DriverState) : Nat := s.tasks.countP isInFlightTask

/-- Recognizer for `tts_stream_error` events. -/
def isStreamError : Event → Bool
  | .tts_stream_error _ _ => true
  | _ => false

/-- The command strings the full service's dispatch chain recognizes. -/
def knownCommands : List (List Char) :=
  [startListeningCmd, stopListeningCmd, synthesizeSpeechCmd, stopTtsCmd,
   sendGgwaveCmd, getStatusCmd]

/-- Helper: counting a weaker predicate counts no more elements. -/
theorem inFlightCount_le_activeCount (s : DriverState) : inFlightCount s ≤ activeCount s :=
  List.countP_mono_left (fun t _ ht => by
    cases t with
    | guard => simp [isInFlightTask] at ht
    | active w => simp [isActiveTask]
    | done => simp [isInFlightTask] at ht)

/-- Helper: counting across a one-element surgery point. -/
theorem countP_surgery (p : TaskState → Bool) (pre post : List TaskState) (x : TaskState) :
    (pre ++ x :: post).countP p
      = pre.countP p + post.countP p + (if p x then 1 else 0) := by
  rw [List.countP_append, List.countP_cons]
  by_cases hp : p x
  · simp [hp]; omega
  · simp [hp]

/-- Helper: in every reachable driver state, the number of tasks inside the
drain loop equals one exactly when the processing flag is set, and zero
otherwise — the locked idle-to-active transition is the only way in, and
the release in `finally` the only way out. -/
theorem driver_active_inv {s : DriverState} (h : DriverReachable s) :
    activeCount s = (if s.is_processing_tts then 1 else 0) := by
  induction h with
  | init => simp [initDriverState, activeCount]
  | step _ hstep ih =>
    cases hstep with
    | enqueue flag q ts r h =>
        have : (ts ++ [TaskState.guard]).countP isActiveTask = ts.countP isActiveTask := by
          rw [List.countP_append]; simp [isActiveTask]
        simpa [activeCount, this] using ih
    | enqueueFull flag q ts h => exact ih
    | guardBusy q pre post =>
        simp only [activeCount, countP_surgery, isActiveTask] at ih ⊢
        simpa using ih
    | guardEmpty pre post =>
        simp only [activeCount, countP_surgery, isActiveTask] at ih ⊢
        simpa using ih
    | guardAcquire q pre post h =>
        simp only [activeCount, countP_surgery, isActiveTask] at ih ⊢
        simp_all
    | dequeue flag r q pre post =>
        simp only [activeCount, countP_surgery, isActiveTask] at ih ⊢
        simpa using ih
    | finishRequest flag q r pre post =>
        simp only [activeCount, countP_surgery, isActiveTask] at ih ⊢
        simpa using ih
    | release flag pre post =>
        simp only [activeCount, countP_surgery, isActiveTask] at ih ⊢
        cases flag <;> simp_all

/-- C1: at most one synthesis request is in flight at any time.  In every
state reachable by interleaving enqueue calls with running driver-loop
tasks, at most one task is inside the drain loop (no second driver loop
starts past the locked idle-to-active guard) and at most one dequeued
request is being processed. -/
theorem C1_single_flight {s : DriverState} (h : DriverReachable s) :
    activeCount s ≤ 1 ∧ inFlightCount s ≤ 1 := by
  have hinv := driver_active_inv h
  have hle := inFlightCount_le_activeCount s
  constructor
  · rw [hinv]; split <;> omega
  · calc inFlightCount s ≤ activeCount s := hle
      _ ≤ 1 := by rw [hinv]; split <;> omega

/-- C1 witness: the invariant evaluated in the reachable state in which one
driver loop, spawned by an enqueue, has acquired the guard and dequeued
request 5. -/
theorem C1_single_flight_witness :
    activeCount ⟨true, [], [TaskState.active (some 5)]⟩ ≤ 1 ∧
      inFlightCount ⟨true, [], [TaskState.active (some 5)]⟩ ≤ 1 :=
  C1_single_flight
    (DriverReachable.step
      (DriverReachable.step
        (DriverReachable.step DriverReachable.init
          (DriverStep.enqueue false [] [] 5 (by decide)))
        (DriverStep.guardAcquire [5] [] [] (by decide)))
      (DriverStep.dequeue true 5 [] [] []))

/-- C2 counterexample: the splitter applied to "One. Two. Three." merges
the fragment "One." — shorter than 20 characters — into the following
fragment, returning the 2 sentences "One. Two." and "Three.", not 3. -/
theorem C2_counterexample :
    split_into_sentences defaultConfig "One. Two. Three.".data
        = ["One. Two.".data, "Three.".data]
      ∧ (split_into_sentences defaultConfig "One. Two. Three.".data).length ≠ 3 :=
  ⟨by decide, by decide⟩

/-- C2 amended: streaming "One. Two. Three." with a succeeding synthesis
collaborator emits `tts_stream_start` with `total_sentences = 2`, then
exactly 2 `tts_stream_chunk` events with indices 0 and 1 in order and
`is_final` true only on index 1, then one `tts_stream_complete` — the
under-20-character merge makes the sentence count 2, not 3. -/
theorem C2_amended :
    handle_streaming_tts (fun _ => some [0]) defaultConfig ⟨true, some 7⟩
        "One. Two. Three.".data (some 7)
      = [Event.tts_stream_start 2 "One. Two. Three.".data (some 7),
         Event.tts_stream_chunk [0] "One. Two.".data 0 2 false (some 7),
         Event.tts_stream_chunk [0] "Three.".data 1 2 true (some 7),
         Event.tts_stream_complete "One. Two. Three.".data 2 (some 7)] := by
  decide

/-- C3 helper: `_process_speech_buffer` only ever hands over an utterance
of at least `min_speech_chunks` frames. -/
theorem process_speech_buffer_emitted_min (cfg : SpeechConfig) (st : SegState)
    (hall : ∀ u ∈ st.emitted, cfg.min_speech_chunks ≤ u) :
    ∀ u ∈ (process_speech_buffer cfg st).emitted, cfg.min_speech_chunks ≤ u := by
  by_cases h1 : cfg.min_speech_chunks ≤ st.speech_buffer
  · by_cases h2 : cfg.silence_threshold ≤ st.silence_counter ∨
        cfg.max_speech_chunks ≤ st.speech_buffer
    · by_cases h3 : st.audio_queue.length < 3
      · simp only [process_speech_buffer, h1, h2, h3, if_true, if_pos]
        intro u hu
        rcases List.mem_append.mp hu with hu | hu
        · exact hall u hu
        · rwa [List.mem_singleton.mp hu]
      · simpa [process_speech_buffer, h1, h2, h3] using hall
    · simpa [process_speech_buffer, h1, h2] using hall
  · simpa [process_speech_buffer, h1] using hall

/-- C3 helper: one capture-loop iteration preserves the lower bound on all
emitted utterances. -/
theorem captureStep_emitted_min (cfg : SpeechConfig) (st : SegState) (b : Bool)
    (hall : ∀ u ∈ st.emitted, cfg.min_speech_chunks ≤ u) :
    ∀ u ∈ (captureStep cfg st b).emitted, cfg.min_speech_chunks ≤ u := by
  cases b
  · exact process_speech_buffer_emitted_min cfg _ hall
  · exact hall

/-- C3 helper: the capture loop preserves the lower bound on all emitted
utterances from any starting state. -/
theorem captureRun_emitted_min (cfg : SpeechConfig) (frames : List Bool) :
    ∀ st : SegState, (∀ u ∈ st.emitted, cfg.min_speech_chunks ≤ u) →
      ∀ u ∈ (captureRun cfg st frames).emitted, cfg.min_speech_chunks ≤ u := by
  induction frames with
  | nil => intro st h; exact h
  | cons b bs ih => intro st h; exact ih _ (captureStep_emitted_min cfg st b h)

/-- C3 amended: for every sequence of classified frames from a fresh start,
every utterance the segmentation hands to the recognition queue holds at
least `min_speech_chunks` frames.  The `max_speech_chunks` upper bound is
not an invariant — the flush condition is only evaluated on silence
frames, so a long run of speech frames grows the buffer past the maximum
(see the counterexample). -/
theorem C3_amended (cfg : SpeechConfig) (frames : List Bool) :
    ∀ u ∈ (captureRun cfg initSegState frames).emitted, cfg.min_speech_chunks ≤ u :=
  captureRun_emitted_min cfg frames initSegState (by simp [initSegState])

/-- C3 amended witness: ten speech frames followed by two silence frames
emit one utterance of 10 frames, which meets the minimum of 10. -/
theorem C3_amended_witness :
    10 ∈ (captureRun defaultConfig initSegState
        (List.replicate 10 true ++ [false, false])).emitted
      ∧ defaultConfig.min_speech_chunks ≤ 10 :=
  ⟨by decide,
   C3_amended defaultConfig (List.replicate 10 true ++ [false, false]) 10 (by decide)⟩

set_option maxRecDepth 4000 in
/-- C3 counterexample: 101 consecutive speech frames followed by one
silence frame make the segmentation emit an utterance of 101 frames,
strictly more than `max_speech_chunks = 100` — the buffer kept growing
because only silence frames trigger the flush check. -/
theorem C3_counterexample :
    (captureRun defaultConfig initSegState
        (List.replicate 101 true ++ [false])).emitted = [101]
      ∧ ¬ 101 ≤ defaultConfig.max_speech_chunks :=
  ⟨by decide, by decide⟩

/-- C4 helper: when the supersession guard holds, the per-sentence loop
runs to completion and emits only chunk events — in particular no
`tts_stream_error` — whatever the synthesis oracle answers. -/
theorem stream_sentences_no_error (synth : List Char → Option Audio) (fl : TtsFlags)
    (mid : Option Nat) (total : Nat) (hp : fl.is_processing_tts = true)
    (hc : fl.current_tts_id = mid) (i : Nat) (ss : List (List Char)) :
    (stream_sentences synth fl mid total i ss).2 = true ∧
      (stream_sentences synth fl mid total i ss).1.filter isStreamError = [] := by
  induction ss generalizing i with
  | nil => simp [stream_sentences]
  | cons s rest ih =>
    have hguard : ¬ (¬ fl.is_processing_tts ∨ fl.current_tts_id ≠ mid) := by
      simp [hp, hc]
    simp only [stream_sentences, hguard, if_false, if_neg, not_false_eq_true]
    refine ⟨(ih (i + 1)).1, ?_⟩
    rw [List.filter_append]
    rw [(ih (i + 1)).2]
    split
    · split
      · simp [isStreamError]
      · simp
    · simp

/-- C4 amended: a failed chunk synthesis is skipped silently — during
streaming processing the service never emits `tts_stream_error` on a
synthesis failure (it only logs, that event requiring an exception in the
handler itself), keeps processing the remaining chunks, and still emits
`tts_stream_complete` for the request; the queue then continues with the
next request. -/
theorem C4_amended (synth : List Char → Option Audio) (cfg : SpeechConfig)
    (fl : TtsFlags) (text : List Char) (mid : Option Nat)
    (hp : fl.is_processing_tts = true) (hc : fl.current_tts_id = mid) :
    (handle_streaming_tts synth cfg fl text mid).filter isStreamError = []
      ∧ Event.tts_stream_complete text (split_into_sentences cfg text).length mid
          ∈ handle_streaming_tts synth cfg fl text mid := by
  have hguard : ¬ (¬ fl.is_processing_tts ∨ fl.current_tts_id ≠ mid) := by
    simp [hp, hc]
  have hs := stream_sentences_no_error synth fl mid
    (split_into_sentences cfg text).length hp hc 0 (split_into_sentences cfg text)
  simp only [handle_streaming_tts, hguard, if_false, if_neg, not_false_eq_true, hs.1,
    if_true]
  constructor
  · simp [List.filter_append, hs.2, isStreamError]
  · simp

/-- C4 amended witness: the amended statement evaluated with a collaborator
that fails on the first sentence of a two-sentence text. -/
theorem C4_amended_witness :
    (handle_streaming_tts (fun s => if s.head? = some 'A' then none else some [1])
        defaultConfig ⟨true, some 3⟩
        "Aaaaaaaaaaaaaaaaaaaaaa. Bbbbbbbbbbbbbbbbbbbbbb.".data (some 3)).filter
          isStreamError = []
      ∧ Event.tts_stream_complete
            "Aaaaaaaaaaaaaaaaaaaaaa. Bbbbbbbbbbbbbbbbbbbbbb.".data 2 (some 3)
          ∈ handle_streaming_tts (fun s => if s.head? = some 'A' then none else some [1])
              defaultConfig ⟨true, some 3⟩
              "Aaaaaaaaaaaaaaaaaaaaaa. Bbbbbbbbbbbbbbbbbbbbbb.".data (some 3) :=
  C4_amended (fun s => if s.head? = some 'A' then none else some [1]) defaultConfig
    ⟨true, some 3⟩ "Aaaaaaaaaaaaaaaaaaaaaa. Bbbbbbbbbbbbbbbbbbbbbb.".data (some 3)
    rfl rfl

/-- C4 counterexample: with the synthesis collaborator failing on the first
of two sentences, the stream emits no `tts_stream_error`, still emits the
chunk of the later index 1, and still emits `tts_stream_complete` —
refuting both the error event and the stop of the remaining chunks. -/
theorem C4_counterexample :
    handle_streaming_tts (fun s => if s.head? = some 'A' then none else some [1])
        defaultConfig ⟨true, some 3⟩
        "Aaaaaaaaaaaaaaaaaaaaaa. Bbbbbbbbbbbbbbbbbbbbbb.".data (some 3)
      = [Event.tts_stream_start 2
           "Aaaaaaaaaaaaaaaaaaaaaa. Bbbbbbbbbbbbbbbbbbbbbb.".data (some 3),
         Event.tts_stream_chunk [1] "Bbbbbbbbbbbbbbbbbbbbbb.".data 1 2 true (some 3),
         Event.tts_stream_complete
           "Aaaaaaaaaaaaaaaaaaaaaa. Bbbbbbbbbbbbbbbbbbbbbb.".data 2 (some 3)] := by
  decide

/-- C5 counterexample: the full service's dispatch chain has no else
branch, so the unknown command "foo" produces no event at all on the
connection and leaves the state unchanged — no error names the command. -/
theorem C5_counterexample :
    handle_websocket_message (fun _ => true)
        ⟨true, "cuda".data, true, true, [], false, none⟩ 0
        (.msg (some "foo".data) [] none false)
      = (⟨true, "cuda".data, true, true, [], false, none⟩, []) := rfl

/-- C5 amended: an inbound message whose command is not one of the
recognized commands is silently ignored by the full service — no event is
sent, the state is unchanged, and the handler returns normally so the
connection stays open; only the minimal test service answers with an
`error` event naming the unrecognized command. -/
theorem C5_amended (g : List Char → Bool) (st : ServiceState) (conn : Nat)
    (c txt : List Char) (mid : Option Nat) (strm : Bool) (h : c ∉ knownCommands) :
    handle_websocket_message g st conn (.msg (some c) txt mid strm) = (st, [])
      ∧ minimal_handle_websocket_message (.msg (some c) txt mid strm)
          = [Event.error ("Unknown command: ".data ++ c)] := by
  simp only [knownCommands, List.mem_cons, List.not_mem_nil, or_false, not_or] at h
  obtain ⟨h1, h2, h3, h4, h5, h6⟩ := h
  constructor
  · simp [handle_websocket_message, h1, h2, h3, h4, h5, h6]
  · simp [minimal_handle_websocket_message, h1, h2, h3, h4, h5, h6,
      unknownCommandMsg, renderCommand]

/-- C5 amended witness: the amended statement evaluated at command "foo". -/
theorem C5_amended_witness :
    handle_websocket_message (fun _ => true)
        ⟨true, "cuda".data, true, true, [], false, none⟩ 1
        (.msg (some "foo".data) [] none false)
      = (⟨true, "cuda".data, true, true, [], false, none⟩, [])
      ∧ minimal_handle_websocket_message (.msg (some "foo".data) [] none false)
          = [Event.error "Unknown command: foo".data] :=
  C5_amended (fun _ => true) ⟨true, "cuda".data, true, true, [], false, none⟩ 1
    "foo".data [] none false (by decide)

/-- C6 counterexample: undecodable input to the full service is caught and
only logged — no error event is sent back to the offending connection. -/
theorem C6_counterexample :
    handle_websocket_message (fun _ => true)
        ⟨true, "cuda".data, true, true, [], false, none⟩ 0 .malformed
      = (⟨true, "cuda".data, true, true, [], false, none⟩, []) := rfl

/-- C6 amended: undecodable input crashes neither handler and closes no
connection — the full service catches the decode failure, sends nothing
and changes no state, while the minimal test service sends the
`error{Invalid JSON}` event. -/
theorem C6_amended (g : List Char → Bool) (st : ServiceState) (conn : Nat) :
    handle_websocket_message g st conn .malformed = (st, [])
      ∧ minimal_handle_websocket_message .malformed = [Event.error invalidJsonMsg] :=
  ⟨rfl, rfl⟩

/-- C6 amended witness: the amended statement at a concrete state. -/
theorem C6_amended_witness :
    handle_websocket_message (fun _ => true)
        ⟨true, "cuda".data, true, true, [], false, none⟩ 5 .malformed
      = (⟨true, "cuda".data, true, true, [], false, none⟩, [])
      ∧ minimal_handle_websocket_message .malformed = [Event.error invalidJsonMsg] :=
  C6_amended (fun _ => true) ⟨true, "cuda".data, true, true, [], false, none⟩ 5

/-- C7 counterexample: with the service running, `stop_listening` leaves
the state unchanged (the handler only acknowledges; it never touches the
flag), and a `get_status` issued afterwards still reports
`listening = true`, not false. -/
theorem C7_counterexample :
    handle_websocket_message (fun _ => true)
        ⟨true, "cuda".data, true, true, [], false, none⟩ 0
        (.msg (some stopListeningCmd) [] none false)
      = (⟨true, "cuda".data, true, true, [], false, none⟩,
         [(0, Event.listening_stopped)])
      ∧ (handle_websocket_message (fun _ => true)
          ⟨true, "cuda".data, true, true, [], false, none⟩ 0
          (.msg (some getStatusCmd) [] none false)).2
        = [(0, Event.status true "cuda".data true 0 false none)] :=
  ⟨rfl, rfl⟩

/-- C7 amended: `start_listening` and `stop_listening` only send their
acknowledgement events without modifying the listening flag, and a
`get_status` issued after `stop_listening` reports the service-wide
running flag unchanged — true or false as it already was. -/
theorem C7_amended (g : List Char → Bool) (st : ServiceState) (conn : Nat) :
    handle_websocket_message g st conn (.msg (some startListeningCmd) [] none false)
        = (st, [(conn, Event.listening_started)])
      ∧ handle_websocket_message g st conn (.msg (some stopListeningCmd) [] none false)
          = (st, [(conn, Event.listening_stopped)])
      ∧ (handle_websocket_message g
            (handle_websocket_message g st conn
              (.msg (some stopListeningCmd) [] none false)).1
            conn (.msg (some getStatusCmd) [] none false)).2
          = [(conn, Event.status st.running st.device
              (st.whisper_loaded && st.tts_model_loaded) st.tts_queue.length
              st.is_processing_tts st.current_tts_id)] :=
  ⟨rfl, rfl, rfl⟩

/-- C7 amended witness: the amended statement at a running concrete
state. -/
theorem C7_amended_witness :
    handle_websocket_message (fun _ => true)
        ⟨true, "cuda".data, true, true, [], false, none⟩ 2
        (.msg (some startListeningCmd) [] none false)
      = (⟨true, "cuda".data, true, true, [], false, none⟩,
         [(2, Event.listening_started)])
      ∧ handle_websocket_message (fun _ => true)
          ⟨true, "cuda".data, true, true, [], false, none⟩ 2
          (.msg (some stopListeningCmd) [] none false)
        = (⟨true, "cuda".data, true, true, [], false, none⟩,
           [(2, Event.listening_stopped)])
      ∧ (handle_websocket_message (fun _ => true)
            (handle_websocket_message (fun _ => true)
              ⟨true, "cuda".data, true, true, [], false, none⟩ 2
              (.msg (some stopListeningCmd) [] none false)).1
            2 (.msg (some getStatusCmd) [] none false)).2
          = [(2, Event.status true "cuda".data true 0 false none)] :=
  C7_amended (fun _ => true) ⟨true, "cuda".data, true, true, [], false, none⟩ 2

/-- C8: with the TTS model loaded, an enqueue below the capacity of 10
appends the request to the back of the FIFO and succeeds with no error
event, while an enqueue with the queue at capacity fails: the state — in
particular the queue — is unchanged (the request is neither added nor
retried) and a terminal `speech_error` naming the full queue is sent to
the requesting connection. -/
theorem C8_queue_full (st : ServiceState) (conn : Nat) (txt : List Char)
    (mid : Option Nat) (strm : Bool) (hm : st.tts_model_loaded = true) :
    (st.tts_queue.length < ttsQueueMaxsize →
       handle_tts_request st conn txt mid strm
         = ({ st with tts_queue := st.tts_queue ++ [⟨conn, txt, mid, strm⟩] }, []))
      ∧ (st.tts_queue.length = ttsQueueMaxsize →
       handle_tts_request st conn txt mid strm
         = (st, [(conn, Event.speech_error queueFullMsg none)])) := by
  constructor
  · intro hlt
    simp [handle_tts_request, hm, hlt]
  · intro heq
    simp [handle_tts_request, hm, heq, ttsQueueMaxsize]

/-- C8 witness: with ten requests already queued, the eleventh enqueue is
rejected with the queue-full `speech_error` and no state change. -/
theorem C8_queue_full_witness :
    handle_tts_request
        ⟨true, "cuda".data, true, true,
         List.replicate 10 ⟨0, "x".data, none, false⟩, false, none⟩
        3 "hello".data none false
      = (⟨true, "cuda".data, true, true,
          List.replicate 10 ⟨0, "x".data, none, false⟩, false, none⟩,
         [(3, Event.speech_error queueFullMsg none)]) :=
  (C8_queue_full
      ⟨true, "cuda".data, true, true,
       List.replicate 10 ⟨0, "x".data, none, false⟩, false, none⟩
      3 "hello".data none false rfl).2 (by decide)

/-- C9: invoking `stop_tts` when nothing is being processed is a no-op on
the state: it returns normally with only the "No TTS currently processing"
acknowledgement, leaves the queue contents and both processing fields
unchanged, and a repeated call leaves the state unchanged again
(idempotence). -/
theorem C9_stop_tts_idle (st : ServiceState) (conn conn2 : Nat)
    (h : st.is_processing_tts = false) :
    handle_stop_tts st conn = (st, [(conn, Event.tts_stopped noTtsProcessingMsg)])
      ∧ handle_stop_tts (handle_stop_tts st conn).1 conn2
          = (st, [(conn2, Event.tts_stopped noTtsProcessingMsg)]) := by
  have h1 : handle_stop_tts st conn
      = (st, [(conn, Event.tts_stopped noTtsProcessingMsg)]) := by
    simp [handle_stop_tts, h]
  exact ⟨h1, by rw [h1]; simp [handle_stop_tts, h]⟩

/-- C9 witness: `stop_tts` on a concrete idle state acknowledges and
changes nothing. -/
theorem C9_stop_tts_idle_witness :
    handle_stop_tts ⟨true, "cuda".data, true, true, [], false, none⟩ 0
      = (⟨true, "cuda".data, true, true, [], false, none⟩,
         [(0, Event.tts_stopped noTtsProcessingMsg)]) :=
  (C9_stop_tts_idle ⟨true, "cuda".data, true, true, [], false, none⟩ 0 0 rfl).1

/-- C10: a `synthesize_speech` command whose payload text is empty (or
absent, defaulting to empty) yields no response event at all — neither
`speech_generated` nor `speech_error` — and enqueues nothing; likewise a
`send_ggwave` command with empty text yields neither `ggwave_sent` nor
`ggwave_error`.  Both are silently ignored with the state unchanged. -/
theorem C10_empty_text_ignored (g : List Char → Bool) (st : ServiceState)
    (conn : Nat) (mid : Option Nat) (strm : Bool) :
    handle_websocket_message g st conn (.msg (some synthesizeSpeechCmd) [] mid strm)
        = (st, [])
      ∧ handle_websocket_message g st conn (.msg (some sendGgwaveCmd) [] mid strm)
          = (st, []) :=
  ⟨rfl, rfl⟩

/-- C10 witness: the statement at a concrete state. -/
theorem C10_empty_text_ignored_witness :
    handle_websocket_message (fun _ => true)
        ⟨true, "cuda".data, true, true, [], false, none⟩ 4
        (.msg (some synthesizeSpeechCmd) [] none true)
      = (⟨true, "cuda".data, true, true, [], false, none⟩, [])
      ∧ handle_websocket_message (fun _ => true)
          ⟨true, "cuda".data, true, true, [], false, none⟩ 4
          (.msg (some sendGgwaveCmd) [] none true)
        = (⟨true, "cuda".data, true, true, [], false, none⟩, []) :=
  C10_empty_text_ignored (fun _ => true)
    ⟨true, "cuda".data, true, true, [], false, none⟩ 4 none true

end Ally
